import Mathlib

/-!
Shallow embedding of the nussl `AudioSignal` class
(`src/nussl/core/audio_signal.py`): the STFT-parameter setter and its
COLA validation, the `audio_data` / `stft_data` setters and getters, the
active-region mechanism, the structural mutators (`concat`,
`truncate_samples`, `truncate_seconds`, `crop_signal`, `zero_pad`),
signal arithmetic (`add`, `subtract`, `apply_gain`), `apply_mask`,
`make_copy_with_stft_data`, `istft` truncation, and the length accessors.

Modelling conventions:
* numpy floating-point samples are modelled as rationals; the
  `np.isfinite` guard of the `audio_data` setter is vacuous over the
  rationals and is therefore not represented.
* a 2-D sample array of shape (channels, samples) is a `List (List Rat)`
  (list of channel rows); numpy arrays are rectangular, captured by the
  `Rect` predicate where a claim needs it.
* STFT arrays are `NdArr`: a numpy shape vector together with row-major
  data whose complex entries are pairs of rationals.
* Python exceptions (`AudioSignalException`, `TypeError`, scipy
  `ValueError`) become `Except String`; message interpolation of the
  source f-strings is dropped, keeping the constant message text.
* external collaborators (the scipy `check_COLA` numerics and window
  table, the per-channel inverse STFT kernel) are parameters of the
  corresponding functions.
-/

/-- Python slice bound: the effective index of bound `i` for a sequence of
length `n`; a negative bound counts from the end, and bounds are clamped
into `[0, n]`. -/
def pyIdx (n : Nat) (i : Int) : Nat :=
  if i < 0 then ((n : Int) + i).toNat else min i.toNat n

/-- Python slice `xs[start:stop]`. -/
def pySlice {α : Type} (start stop : Int) (xs : List α) : List α :=
  (xs.take (pyIdx xs.length stop)).drop (pyIdx xs.length start)

/-- Number of samples per channel of a 2-D array (numpy `shape[1]`,
`constants.LEN_INDEX`). -/
def rowLen (m : List (List ℚ)) : Nat := (m.headD []).length

/-- Rectangularity of a 2-D array: every channel row has the same length
(true of every numpy 2-D array). -/
def Rect (m : List (List ℚ)) : Prop := ∀ r ∈ m, r.length = rowLen m

instance (m : List (List ℚ)) : Decidable (Rect m) :=
  inferInstanceAs (Decidable (∀ r ∈ m, r.length = rowLen m))

/-- numpy transpose `value.T` of a rectangular 2-D array. -/
def npTranspose (m : List (List ℚ)) : List (List ℚ) :=
  (List.range (rowLen m)).map (fun j => m.map (fun r => r.getD j 0))

/-- Complex STFT entries, as pairs of rationals (real and imaginary
part). -/
abbrev Cplx := ℚ × ℚ

/-- Complex multiplication on `Cplx`. -/
def cmul (x y : Cplx) : Cplx :=
  (x.1 * y.1 - x.2 * y.2, x.1 * y.2 + x.2 * y.1)

/-- A numpy ndarray of complex entries: shape vector plus row-major
data. -/
structure NdArr where
  shape : List Nat
  data : List Cplx
deriving DecidableEq

/-- numpy `size`: the product of the shape. -/
def ndSize (v : NdArr) : Nat := v.shape.prod

/-- Broadcast two shape vectors given in reverse (trailing axis first). -/
def bcastRev : List Nat → List Nat → Option (List Nat)
  | [], ys => some ys
  | x :: xs, [] => some (x :: xs)
  | x :: xs, y :: ys =>
    match bcastRev xs ys with
    | none => none
    | some rest =>
      if x = y then some (x :: rest)
      else if x = 1 then some (y :: rest)
      else if y = 1 then some (x :: rest)
      else none

/-- numpy shape broadcasting (axes aligned from the trailing axis). -/
def broadcastShape (a b : List Nat) : Option (List Nat) :=
  (bcastRev a.reverse b.reverse).map List.reverse

/-- All multi-indices of a shape, in row-major order. -/
def allIndices : List Nat → List (List Nat)
  | [] => [[]]
  | d :: ds => (List.range d).flatMap (fun i => (allIndices ds).map (fun t => i :: t))

/-- Row-major flat index of a multi-index. -/
def flatIndex (shape idx : List Nat) : Nat :=
  (List.zip shape idx).foldl (fun acc p => acc * p.1 + p.2) 0

/-- Project a multi-index of a broadcast result shape onto an operand
shape: keep the trailing coordinates and collapse broadcast (size-1)
axes. -/
def projIdx (shape idx : List Nat) : List Nat :=
  (List.zip shape (idx.drop (idx.length - shape.length))).map
    (fun p => if p.1 = 1 then 0 else p.2)

/-- Entry of an ndarray at a (possibly longer, broadcast) multi-index. -/
def entryAt (a : NdArr) (idx : List Nat) : Cplx :=
  a.data.getD (flatIndex a.shape (projIdx a.shape idx)) ((0 : ℚ), (0 : ℚ))

/-- numpy elementwise product with broadcasting; `none` models the numpy
broadcast `ValueError` for incompatible shapes. -/
def npMul (a b : NdArr) : Option NdArr :=
  match broadcastShape a.shape b.shape with
  | none => none
  | some sh =>
    some ⟨sh, (allIndices sh).map (fun idx => cmul (entryAt a idx) (entryAt b idx))⟩

/-- The user-facing `STFTParams` namedtuple: every field may be unset. -/
structure STFTParams where
  window_length : Option Nat
  hop_length : Option Nat
  window_type : Option String
deriving DecidableEq

/-- An `STFTParams` value with every field filled in; `_stft_params`
always has this form once the setter has run. -/
structure FilledParams where
  window_length : Nat
  hop_length : Nat
  window_type : String
deriving DecidableEq

/-- Least power of two that is at least `m` (fuel-based helper). -/
def ceilPow2Aux : Nat → Nat → Nat
  | 0, _ => 1
  | fuel + 1, m => if m ≤ 1 then 1 else 2 * ceilPow2Aux fuel ((m + 1) / 2)

/-- Least power of two that is at least `m`. -/
def pow2Ge (m : Nat) : Nat := ceilPow2Aux m m

/-- Default window length `int(2 ** ceil(log2(0.032 * sample_rate)))`,
computed exactly over the rationals (0.032 = 4/125, so the bound is the
least power of two at least `ceil(4 * sample_rate / 125)`). -/
def defaultWinLen (sampleRate : Nat) : Nat :=
  pow2Ge ((4 * sampleRate + 124) / 125)

/-- The sample-rate-derived default STFT parameters: 32 ms power-of-two
window, quarter-window hop, hann window. -/
def defaultParams (sampleRate : Nat) : FilledParams :=
  { window_length := defaultWinLen sampleRate,
    hop_length := defaultWinLen sampleRate / 4,
    window_type := "hann" }

/-- External scipy collaborator: `knownWindow` says which window names
`scipy.signal.get_window` accepts and `verdict` is the numerical COLA
test result. -/
structure ScipyCola where
  knownWindow : String → Bool
  verdict : String → Nat → Nat → Bool

/-- scipy `check_COLA(window, nperseg, noverlap)`: raises `ValueError`
for invalid parameters and otherwise returns its boolean verdict; it does
not raise when the COLA condition merely fails. -/
def check_COLA (sc : ScipyCola) (window : String) (nperseg noverlap : Nat) :
    Except String Bool :=
  if nperseg < 1 then .error "nperseg must be a positive integer"
  else if nperseg ≤ noverlap then .error "noverlap must be less than nperseg."
  else if sc.knownWindow window then .ok (sc.verdict window nperseg noverlap)
  else .error "Unknown window type."

/-- The `stft_params` setter: fill unset fields from the sample-rate
defaults, assign the filled triple to `_stft_params`, then call
`check_COLA` on the effective synthesis window (`hann` when the type is
`sqrt_hann`).  The result is the pair (assigned `_stft_params`, raised
exception if any); as in the source, the assignment happens before the
call and the boolean verdict of `check_COLA` is discarded. -/
def set_stft_params (sc : ScipyCola) (sampleRate : Nat)
    (value : Option STFTParams) : FilledParams × Except String Unit :=
  let d := defaultParams sampleRate
  let v : STFTParams :=
    match value with
    | some p => p
    | none => ⟨some d.window_length, some d.hop_length, some d.window_type⟩
  let filled : FilledParams :=
    { window_length := v.window_length.getD d.window_length,
      hop_length := v.hop_length.getD d.hop_length,
      window_type := v.window_type.getD d.window_type }
  let wt := if filled.window_type = "sqrt_hann" then "hann" else filled.window_type
  match check_COLA sc wt filled.window_length filled.hop_length with
  | .error e => (filled, .error e)
  | .ok _ => (filled, .ok ())

/-- The `AudioSignal` state: the private fields of the Python object.
`audioData` is the full backing `_audio_data` array; `stftParams` is kept
in its always-filled form. -/
structure AudioSignal where
  pathToInputFile : Option String
  audioData : Option (List (List ℚ))
  originalSignalLength : Option Nat
  stftData : Option NdArr
  sampleRate : Nat
  activeStart : Option Int
  activeEnd : Option Int
  label : Option String
  stftParams : FilledParams
deriving DecidableEq

/-- The `_signal_length` property: length of the full backing array, not
of the active region. -/
def full_signal_length (s : AudioSignal) : Option Nat :=
  s.audioData.map rowLen

/-- The `audio_data` getter: the active-region slice of the backing
array. -/
def get_audio_data (s : AudioSignal) : Option (List (List ℚ)) :=
  match s.audioData with
  | none => none
  | some m =>
    let e : Int :=
      match s.activeEnd with
      | some e0 => if e0 < (rowLen m : Int) then e0 else (rowLen m : Int)
      | none => (rowLen m : Int)
    let a : Int :=
      match s.activeStart with
      | some a0 => if a0 > 0 then a0 else 0
      | none => 0
    some (m.map (fun r => pySlice a e r))

/-- The `signal_length` property: active-region sample count when audio
data is present, the recorded original length otherwise. -/
def signal_length (s : AudioSignal) : Option Nat :=
  match get_audio_data s with
  | none => s.originalSignalLength
  | some m => some (rowLen m)

/-- The `num_channels` property: channel count from `audio_data` if
present, else from `stft_data`, else `None`. -/
def num_channels (s : AudioSignal) : Option Nat :=
  match get_audio_data s with
  | some m => some m.length
  | none =>
    match s.stftData with
    | some v => some (v.shape.getD 2 0)
    | none => none

/-- `active_region_is_default`: Python
`_active_start == 0 and _active_end == _signal_length` (where
`None == None` is true). -/
def active_region_is_default (s : AudioSignal) : Bool :=
  (match s.activeStart with
   | some a => a == 0
   | none => false) &&
  (match s.activeEnd, full_signal_length s with
   | none, none => true
   | some e, some n => e == (n : Int)
   | _, _ => false)

/-- `set_active_region_to_default`. -/
def set_active_region_to_default (s : AudioSignal) : AudioSignal :=
  { s with activeStart := some 0,
           activeEnd := (full_signal_length s).map (fun n => (n : Int)) }

/-- `set_active_region(start, end)`: clamp `start` below by 0 and `end`
above by the full length; comparing `end` against a missing length is the
Python `TypeError`. -/
def set_active_region (s : AudioSignal) (start e : Int) :
    Except String AudioSignal :=
  match full_signal_length s with
  | none => .error "TypeError: int compared with NoneType"
  | some n =>
    .ok { s with
      activeStart := some (if start ≥ 0 then start else 0),
      activeEnd := some (if e < (n : Int) then e else (n : Int)) }

/-- Rank classification of an array assigned to `audio_data`. -/
inductive NpInput where
  | d1 (xs : List ℚ)
  | d2 (m : List (List ℚ))
  | dHigher
deriving DecidableEq

/-- Core of the `audio_data` setter on a non-None array: transpose a 2-D
array when its leading axis is larger than its trailing axis, reject rank
above 2, promote a 1-D array to a single channel. -/
def set_audio_data_core : NpInput → Except String (List (List ℚ))
  | .dHigher => .error "self.audio_data cannot have more than 2 dimensions!"
  | .d1 xs => .ok [xs]
  | .d2 m => .ok (if rowLen m < m.length then npTranspose m else m)

/-- The `audio_data` setter: `None` clears the backing array (leaving the
active-region fields untouched); otherwise store the normalized array and
reset the active region to default. -/
def set_audio_data (s : AudioSignal) (value : Option NpInput) :
    Except String AudioSignal :=
  match value with
  | none => .ok { s with audioData := none }
  | some v =>
    match set_audio_data_core v with
    | .error e => .error e
    | .ok m => .ok (set_active_region_to_default { s with audioData := some m })

/-- The `stft_data` setter: reject rank 1 and rank above 3, expand a 2-D
array with a trailing channel axis (row-major data is unchanged by
that). -/
def set_stft_data (s : AudioSignal) (value : Option NdArr) :
    Except String AudioSignal :=
  match value with
  | none => .ok { s with stftData := none }
  | some v =>
    if v.shape.length = 1 then
      .error "Cannot support arrays with less than 2 dimensions!"
    else if v.shape.length = 2 then
      .ok { s with stftData := some ⟨v.shape ++ [1], v.data⟩ }
    else if 3 < v.shape.length then
      .error "Cannot support arrays with more than 3 dimensions!"
    else .ok { s with stftData := some v }

/-- `load_audio_from_array(signal, sample_rate)` (the fixed-point to
floating conversion is identity over the rationals). -/
def load_audio_from_array (s : AudioSignal) (signal : NpInput)
    (sampleRate : Nat) : Except String AudioSignal :=
  match set_audio_data { s with pathToInputFile := none } (some signal) with
  | .error e => .error e
  | .ok s1 =>
    .ok (set_active_region_to_default
      { s1 with originalSignalLength := signal_length s1, sampleRate := sampleRate })

/-- `AudioSignal()` constructed with no arguments: no data, default
sample rate 44100, and the `stft_params` setter run with `None` (which
stores the sample-rate defaults). -/
def emptySignal : AudioSignal :=
  { pathToInputFile := none, audioData := none, originalSignalLength := none,
    stftData := none, sampleRate := 44100, activeStart := none,
    activeEnd := none, label := none, stftParams := defaultParams 44100 }

/-- Unwrap a successful construction step (used to name concrete
reachable states; the error branch never fires in the uses below). -/
def okOr (e : Except String AudioSignal) : AudioSignal :=
  match e with
  | .ok s => s
  | .error _ => emptySignal

/-- Modelled from the spec: the `masks` module (`MaskBase` and its
subclasses) is not under `src/`; per the spec a mask is a capability
wrapping a real-valued array broadcastable against the spectral shape,
and its `shape` attribute is that array's shape. -/
structure MaskBase where
  mask : NdArr
deriving DecidableEq

/-- `make_copy_with_stft_data(stft_data, verbose)`: deep copy, run the
new STFT through the `stft_data` setter, keep `original_signal_length`,
and null out the audio data (which leaves the active-region fields as
they were).  With `verbose=True` and no stored STFT the source reads
`self.stft_data.shape` off `None`, an `AttributeError`. -/
def make_copy_with_stft_data (s : AudioSignal) (stft : NdArr)
    (verbose : Bool) : Except String AudioSignal :=
  match verbose, s.stftData with
  | true, none => .error "AttributeError: NoneType has no attribute shape"
  | _, _ =>
    match set_stft_data s (some stft) with
    | .error e => .error e
    | .ok s1 =>
      match set_audio_data { s1 with originalSignalLength := s.originalSignalLength } none with
      | .error e => .error e
      | .ok s2 => .ok s2

/-- `apply_mask(mask, overwrite)`: requires STFT data; accepts the mask
when its shape equals the STFT shape, or when the mask shape with its
last axis dropped equals the STFT shape (`mask.shape[:-1] ==
self.stft_data.shape` in the source); otherwise the shape error.  The
masked spectrum either overwrites `stft_data` (second component `none`)
or is returned as a fresh signal via `make_copy_with_stft_data` with
`verbose=False`. -/
def apply_mask (s : AudioSignal) (mask : MaskBase) (overwrite : Bool) :
    Except String (AudioSignal × Option AudioSignal) :=
  match s.stftData with
  | none => .error "There is no STFT data to apply a mask to!"
  | some v =>
    if mask.mask.shape = v.shape ∨ mask.mask.shape.dropLast = v.shape then
      match npMul v mask.mask with
      | none => .error "operands could not be broadcast together"
      | some masked =>
        if overwrite then
          match set_stft_data s (some masked) with
          | .error e => .error e
          | .ok s1 => .ok (s1, none)
        else
          match make_copy_with_stft_data s masked false with
          | .error e => .error e
          | .ok ns => .ok (s, some ns)
    else .error "Input mask and self.stft_data are not the same shape!"

/-- Channel `i` of a stored (3-D, shape `[f, t, c]`) STFT array, as the
2-D frequency-by-time nested list handed to the inverse kernel. -/
def stft_channel (v : NdArr) (i : Nat) : List (List Cplx) :=
  match v.shape with
  | [f, t, c] =>
    (List.range f).map (fun fi =>
      (List.range t).map (fun ti =>
        v.data.getD ((fi * t + ti) * c + i) ((0 : ℚ), (0 : ℚ))))
  | _ => []

/-- The per-channel reconstructions of `istft` before truncation: one
call of the external inverse kernel per channel. -/
def istft_signals (kernel : String → Nat → Nat → List (List Cplx) → List ℚ)
    (wt : String) (wl hl : Nat) (v : NdArr) (nCh : Nat) : List (List ℚ) :=
  (List.range nCh).map (fun i => kernel wt wl hl (stft_channel v i))

/-- `istft(window_length, hop_length, window_type, overwrite,
truncate_to_length)`: requires non-empty STFT data; missing window
arguments default to the stored `stft_params`; reconstruct channel by
channel with the external kernel; pick the truncation target (explicit
argument, else `signal_length`, else `original_signal_length`) and
truncate only when the target is positive; store the result through the
`audio_data` setter when `overwrite` or no audio data exists.  Returns
the final state and the reconstructed (returned) array. -/
def istft (kernel : String → Nat → Nat → List (List Cplx) → List ℚ)
    (s : AudioSignal) (windowLength hopLength : Option Nat)
    (windowType : Option String) (overwrite : Bool)
    (truncateToLength : Option Int) :
    Except String (AudioSignal × List (List ℚ)) :=
  match s.stftData with
  | none => .error "Cannot do inverse STFT without self.stft_data!"
  | some v =>
    if ndSize v = 0 then .error "Cannot do inverse STFT without self.stft_data!"
    else
      let wl := windowLength.getD s.stftParams.window_length
      let hl := hopLength.getD s.stftParams.hop_length
      let wt := windowType.getD s.stftParams.window_type
      match num_channels s with
      | none => .error "TypeError: range expects an integer"
      | some nCh =>
        let signals := istft_signals kernel wt wl hl v nCh
        let ttl : Option Int :=
          match truncateToLength with
          | some t => some t
          | none =>
            match signal_length s with
            | some l => some ((l : Int))
            | none => s.originalSignalLength.map (fun n => (n : Int))
        let truncated :=
          match ttl with
          | some t => if 0 < t then signals.map (fun r => pySlice 0 t r) else signals
          | none => signals
        if overwrite || s.audioData.isNone then
          match set_audio_data s (some (.d2 truncated)) with
          | .error e => .error e
          | .ok s1 => .ok (s1, truncated)
        else .ok (s, truncated)

/-- `_verify_audio`: equal channel counts, equal sample rates. -/
def verify_audio (a b : AudioSignal) : Except String Unit :=
  if num_channels a ≠ num_channels b then
    .error "Cannot do operation with two signals that have a different number of channels!"
  else if a.sampleRate ≠ b.sampleRate then
    .error "Cannot do operation with two signals that have different sample rates!"
  else .ok ()

/-- `_verify_audio_arithmetic`: `_verify_audio` plus equal signal
lengths.  As in the source, neither check looks at the active region. -/
def verify_audio_arithmetic (a b : AudioSignal) : Except String Unit :=
  match verify_audio a b with
  | .error e => .error e
  | .ok _ =>
    if signal_length a ≠ signal_length b then
      .error "Cannot do arithmetic with signals of different length!"
    else .ok ()

/-- `concat(other)`: `_verify_audio`, then concatenate the `audio_data`
getter views along the sample axis and store through the setter.  The
source has no active-region check here. -/
def concat (s other : AudioSignal) : Except String AudioSignal :=
  match verify_audio s other with
  | .error e => .error e
  | .ok _ =>
    match get_audio_data s, get_audio_data other with
    | some a, some b =>
      set_audio_data s (some (.d2 (List.zipWith (fun r1 r2 => r1 ++ r2) a b)))
    | _, _ => .error "TypeError: concatenate with NoneType"

/-- `truncate_samples(n_samples)`: requires the default active region;
clamps `n_samples` above by `signal_length` and keeps the leading
samples. -/
def truncate_samples (s : AudioSignal) (nSamples : Int) :
    Except String AudioSignal :=
  if active_region_is_default s then
    match signal_length s, get_audio_data s with
    | some l, some m =>
      let n : Int := if (l : Int) < nSamples then (l : Int) else nSamples
      set_audio_data s (some (.d2 (m.map (fun r => pySlice 0 n r))))
    | _, _ => .error "TypeError: NoneType"
  else .error "Cannot truncate while active region is not set as default!"

/-- Python `int()` truncation toward zero on a rational. -/
def pyInt (q : ℚ) : Int := if 0 ≤ q then ⌊q⌋ else ⌈q⌉

/-- `truncate_seconds(n_seconds)`. -/
def truncate_seconds (s : AudioSignal) (nSeconds : ℚ) :
    Except String AudioSignal :=
  truncate_samples s (pyInt (nSeconds * (s.sampleRate : ℚ)))

/-- `crop_signal(before, after)`: requires the default active region;
slice `[before : num_samples - after]` and reset the active region. -/
def crop_signal (s : AudioSignal) (before after : Int) :
    Except String AudioSignal :=
  if active_region_is_default s then
    match signal_length s, get_audio_data s with
    | some l, some m =>
      match set_audio_data s
          (some (.d2 (m.map (fun r => pySlice before ((l : Int) - after) r)))) with
      | .error e => .error e
      | .ok s1 => .ok (set_active_region_to_default s1)
    | _, _ => .error "TypeError: NoneType"
  else .error "Cannot crop signal while active region is not set as default!"

/-- `zero_pad(before, after)`: requires the default active region; pad
every channel with zeros on both sides. -/
def zero_pad (s : AudioSignal) (before after : Nat) :
    Except String AudioSignal :=
  if active_region_is_default s then
    match get_audio_data s with
    | some m =>
      set_audio_data s (some (.d2 (m.map (fun r =>
        List.replicate before (0 : ℚ) ++ r ++ List.replicate after (0 : ℚ)))))
    | none => .error "TypeError: NoneType"
  else .error "Cannot zero-pad while active region is not set as default!"

/-- `apply_gain(value)`: multiply the `audio_data` getter view (the
active slice) by the scalar and store the product through the setter;
the `numbers.Real` check is enforced by the rational type. -/
def apply_gain (s : AudioSignal) (value : ℚ) : Except String AudioSignal :=
  match get_audio_data s with
  | none => .error "TypeError: NoneType times float"
  | some m =>
    set_audio_data s (some (.d2 (m.map (fun r => r.map (fun x => x * value)))))

/-- The `*=` operator: `apply_gain(value)`. -/
def imul (s : AudioSignal) (value : ℚ) : Except String AudioSignal :=
  apply_gain s value

/-- The `/=` operator: `apply_gain(1 / value)`. -/
def idiv (s : AudioSignal) (value : ℚ) : Except String AudioSignal :=
  apply_gain s (1 / value)

/-- The right operand of `add` / `+`: an integer or another signal. -/
inductive AddOperand where
  | int (n : Int)
  | signal (s : AudioSignal)

/-- `add(other)`: an integer operand returns `self` unchanged, with no
validation (the `sum` support case); otherwise verify arithmetic
compatibility and store the elementwise sum of the two getter views into
a deep copy of `self`. -/
def add (s : AudioSignal) (other : AddOperand) : Except String AudioSignal :=
  match other with
  | .int _ => .ok s
  | .signal o =>
    match verify_audio_arithmetic s o with
    | .error e => .error e
    | .ok _ =>
      match get_audio_data s, get_audio_data o with
      | some a, some b =>
        set_audio_data s (some (.d2 (List.zipWith (List.zipWith (fun x y => x + y)) a b)))
      | _, _ => .error "TypeError: NoneType addition"

/-- `__radd__`: also `self.add(other)`. -/
def radd (s : AudioSignal) (other : AddOperand) : Except String AudioSignal :=
  add s other

/-- `subtract(other)`: verify, negate a deep copy of `other` via
`apply_gain(-1)`, and add. -/
def subtract (s : AudioSignal) (o : AudioSignal) : Except String AudioSignal :=
  match verify_audio_arithmetic s o with
  | .error e => .error e
  | .ok _ =>
    match apply_gain o (-1) with
    | .error e => .error e
    | .ok oc => add s (.signal oc)

/-- Spec-side statement of the amended istft truncation policy: truncate
each reconstructed channel to `signal_length` when that is a positive
length, and leave the reconstruction untouched otherwise. -/
def specTruncationPolicy (s : AudioSignal) (rows : List (List ℚ)) :
    List (List ℚ) :=
  match signal_length s with
  | some l => if 0 < l then rows.map (fun r => r.take l) else rows
  | none => rows

/-- An external-collaborator instance whose numerical COLA verdict fails
on every triple (and which knows the hann family of windows). -/
def colaAllFail : ScipyCola :=
  { knownWindow := fun w => w == "hann" || w == "sqrt_hann",
    verdict := fun _ _ _ => false }

/-- Assignment `signal.stft_params = value` on an `AudioSignal`: run the
setter with the signal's sample rate; the pair is (state after the
assignment, raised exception if any). -/
def set_stft_params_on (s : AudioSignal) (sc : ScipyCola)
    (value : Option STFTParams) : AudioSignal × Except String Unit :=
  let r := set_stft_params sc s.sampleRate value
  ({ s with stftParams := r.1 }, r.2)

/-- A mono 4-sample signal at rate 4, built through
`load_audio_from_array`. -/
def sigBase4 : AudioSignal :=
  okOr (load_audio_from_array emptySignal (.d1 [1, 2, 3, 4]) 4)

/-- `sigBase4` with active region `[1, 3)` (non-default). -/
def sigActive4 : AudioSignal := okOr (set_active_region sigBase4 1 3)

/-- A second mono 4-sample signal at rate 4. -/
def sigB4 : AudioSignal :=
  okOr (load_audio_from_array emptySignal (.d1 [10, 20, 30, 40]) 4)

/-- `sigB4` with active region `[0, 2)` (non-default). -/
def sigB4win : AudioSignal := okOr (set_active_region sigB4 0 2)

/-- A mono 3-sample signal at rate 4. -/
def sigLen3 : AudioSignal :=
  okOr (load_audio_from_array emptySignal (.d1 [1, 2, 3]) 4)

/-- A mono 4-sample signal at rate 5. -/
def sigRate5 : AudioSignal :=
  okOr (load_audio_from_array emptySignal (.d1 [1, 2, 3, 4]) 5)

/-- A stereo 4-sample signal at rate 4. -/
def sigStereo : AudioSignal :=
  okOr (load_audio_from_array emptySignal (.d2 [[1, 2, 3, 4], [5, 6, 7, 8]]) 4)

/-- A signal holding only STFT data of shape (1, 2, 2). -/
def sigC2 : AudioSignal :=
  okOr (set_stft_data emptySignal
    (some ⟨[1, 2, 2], List.replicate 4 ((1 : ℚ), (0 : ℚ))⟩))

/-- Ten samples. -/
def listTen : List ℚ := [1, 2, 3, 4, 5, 6, 7, 8, 9, 10]

/-- A mono 10-sample signal. -/
def sigTen : AudioSignal :=
  okOr (load_audio_from_array emptySignal (.d1 listTen) 44100)

/-- `sigTen` with the empty active region `[3, 3)`. -/
def sigEmptyWindow : AudioSignal := okOr (set_active_region sigTen 3 3)

/-- A 1-by-1-by-1 STFT array. -/
def ndC6 : NdArr := ⟨[1, 1, 1], [((1 : ℚ), (0 : ℚ))]⟩

/-- `sigEmptyWindow` with STFT data attached: sample data is present but
its active length is zero. -/
def sigC6 : AudioSignal := okOr (set_stft_data sigEmptyWindow (some ndC6))

/-- An inverse-kernel stand-in returning five samples per channel. -/
def constKernel5 : String → Nat → Nat → List (List Cplx) → List ℚ :=
  fun _ _ _ _ => [0, 0, 0, 0, 0]

/-- `sigBase4` with STFT data attached (sample data of length 4). -/
def sigC6w : AudioSignal := okOr (set_stft_data sigBase4 (some ndC6))

/-- An inverse-kernel stand-in returning six samples per channel. -/
def kernel6 : String → Nat → Nat → List (List Cplx) → List ℚ :=
  fun _ _ _ _ => [1, 2, 3, 4, 5, 6]

/-- A 3-channel, 4-sample signal. -/
def sigWide : AudioSignal :=
  okOr (load_audio_from_array emptySignal
    (.d2 [[1, 2, 3, 4], [5, 6, 7, 8], [9, 10, 11, 12]]) 44100)

/-- `sigWide` with active region `[0, 2)`: the active slice is 3 channels
by 2 samples, wider in channels than in samples. -/
def sigWideWin : AudioSignal := okOr (set_active_region sigWide 0 2)

/-- A 5-by-2 matrix (leading axis larger than the trailing one). -/
def mat52 : List (List ℚ) := [[1, 2], [3, 4], [5, 6], [7, 8], [9, 10]]

/-- An empty signal that records an original length of 7 samples (the
state `make_copy_with_stft_data` leaves behind). -/
def sigOrig7 : AudioSignal := { emptySignal with originalSignalLength := some 7 }

theorem bcastRev_self (xs : List Nat) : bcastRev xs xs = some xs := by
  induction xs with
  | nil => rfl
  | cons x xs ih => simp [bcastRev, ih]

theorem broadcastShape_self (xs : List Nat) : broadcastShape xs xs = some xs := by
  simp [broadcastShape, bcastRev_self]

theorem pySlice_zero_coe {α : Type} (l : Nat) (xs : List α) :
    pySlice 0 (l : Int) xs = xs.take l := by
  unfold pySlice pyIdx
  simp only [if_neg (by omega : ¬ ((l : Int) < 0)), if_neg (by omega : ¬ ((0 : Int) < 0))]
  rw [Int.toNat_natCast, Int.toNat_zero, Nat.zero_min, List.drop_zero]
  rcases Nat.le_total l xs.length with h | h
  · rw [Nat.min_eq_left h]
  · rw [Nat.min_eq_right h, List.take_length, List.take_of_length_le h]

theorem signal_length_none {s : AudioSignal} (h : signal_length s = none) :
    s.originalSignalLength = none := by
  unfold signal_length at h
  cases hg : get_audio_data s with
  | none => rw [hg] at h; exact h
  | some m => rw [hg] at h; cases h

theorem rowLen_map_rows (f : List ℚ → List ℚ)
    (hf : ∀ r, (f r).length = r.length) (m : List (List ℚ)) :
    rowLen (m.map f) = rowLen m := by
  cases m with
  | nil => rfl
  | cons r rs => simp [rowLen, hf]

theorem npTranspose_length (m : List (List ℚ)) :
    (npTranspose m).length = rowLen m := by
  simp [npTranspose]

theorem rowLen_npTranspose (m : List (List ℚ)) (h : 0 < rowLen m) :
    rowLen (npTranspose m) = m.length := by
  cases hk : rowLen m with
  | zero => omega
  | succ k =>
    unfold npTranspose
    rw [hk, List.range_succ_eq_map]
    simp [rowLen]

/-- C1: the claim says a COLA-failing triple makes the `stft_params`
assignment fail immediately with a configuration error.  The code instead
computes the `check_COLA` verdict and discards it: with an external COLA
verdict that fails on every triple (in particular on hann/512/300, whose
parameters are valid for `check_COLA`), the assignment stores the triple
and raises nothing. -/
theorem C1_cola_violation_assignment_succeeds :
    colaAllFail.verdict "hann" 512 300 = false ∧
    check_COLA colaAllFail "hann" 512 300 = Except.ok false ∧
    set_stft_params_on { emptySignal with sampleRate := 16000 } colaAllFail
        (some ⟨some 512, some 300, some "hann"⟩) =
      ({ emptySignal with
          sampleRate := 16000
          stftParams := ⟨512, 300, "hann"⟩ }, Except.ok ()) :=
  ⟨rfl, rfl, rfl⟩

/-- C3: on a non-default active region, `truncate_samples`,
`truncate_seconds`, `crop_signal` and `zero_pad` raise the state error,
but `concat` does not: it succeeds, concatenating the 2-sample active
slice with the other signal and silently dropping the hidden samples
(contradicting the claim and `concat`'s own docstring).  On the default
region all five mutators succeed with the expected new lengths. -/
theorem C3_structural_mutators_guard :
    active_region_is_default sigActive4 = false ∧
    Except.map (fun s => s.audioData) (concat sigActive4 sigBase4) =
      Except.ok (some [[2, 3, 1, 2, 3, 4]]) ∧
    truncate_samples sigActive4 2 =
      Except.error "Cannot truncate while active region is not set as default!" ∧
    truncate_seconds sigActive4 (1 / 2 : ℚ) =
      Except.error "Cannot truncate while active region is not set as default!" ∧
    crop_signal sigActive4 1 1 =
      Except.error "Cannot crop signal while active region is not set as default!" ∧
    zero_pad sigActive4 1 1 =
      Except.error "Cannot zero-pad while active region is not set as default!" ∧
    Except.map full_signal_length (concat sigBase4 sigBase4) = Except.ok (some 8) ∧
    Except.map full_signal_length (truncate_samples sigBase4 2) = Except.ok (some 2) ∧
    Except.map full_signal_length (truncate_samples sigBase4 9) = Except.ok (some 4) ∧
    Except.map full_signal_length (truncate_seconds sigBase4 (1 / 2 : ℚ)) =
      Except.ok (some 2) ∧
    Except.map full_signal_length (crop_signal sigBase4 1 1) = Except.ok (some 2) ∧
    Except.map full_signal_length (zero_pad sigBase4 2 1) = Except.ok (some 7) := by
  with_unfolding_all exact ⟨rfl, rfl, rfl, rfl, rfl, rfl, rfl, rfl, rfl, rfl, rfl, rfl⟩

/-- C4: `add` and `subtract` enforce equal channel count, sample rate and
signal length, and on success produce the elementwise sum or difference;
but the active-region requirement of the claim (and of `add`'s docstring)
is not enforced: with both operands on non-default active regions of
equal length, `add` succeeds and sums the active slices. -/
theorem C4_add_subtract_checks :
    active_region_is_default sigActive4 = false ∧
    active_region_is_default sigB4win = false ∧
    Except.map (fun s => s.audioData) (add sigActive4 (.signal sigB4win)) =
      Except.ok (some [[12, 23]]) ∧
    Except.map (fun s => s.audioData) (add sigBase4 (.signal sigB4)) =
      Except.ok (some [[11, 22, 33, 44]]) ∧
    Except.map (fun s => s.audioData) (subtract sigBase4 sigB4) =
      Except.ok (some [[-9, -18, -27, -36]]) ∧
    add sigBase4 (.signal sigLen3) =
      Except.error "Cannot do arithmetic with signals of different length!" ∧
    add sigBase4 (.signal sigRate5) =
      Except.error "Cannot do operation with two signals that have different sample rates!" ∧
    add sigBase4 (.signal sigStereo) =
      Except.error "Cannot do operation with two signals that have a different number of channels!" := by
  with_unfolding_all exact ⟨rfl, rfl, rfl, rfl, rfl, rfl, rfl, rfl⟩

/-- C2 counterexample: the claim says a mask of shape (F, T) broadcasts
over an (F, T, C) spectral buffer; on STFT data of shape (1, 2, 2) a mask
of shape (1, 2) instead fails the shape check with the shape error. -/
theorem C2_ft_mask_rejected :
    sigC2.stftData =
      some ⟨[1, 2, 2], List.replicate 4 ((1 : ℚ), (0 : ℚ))⟩ ∧
    apply_mask sigC2 ⟨⟨[1, 2], [((1 : ℚ), (0 : ℚ)), ((1 : ℚ), (0 : ℚ))]⟩⟩ false =
      Except.error "Input mask and self.stft_data are not the same shape!" :=
  ⟨rfl, rfl⟩

/-- C5 counterexample: on a 10-sample signal, `set_active_region(5, 2)`
succeeds and leaves `active_start = 5 > 2 = active_end`, violating the
claimed invariant `active_start ≤ active_end`. -/
theorem C5_bounds_out_of_order :
    set_active_region sigTen 5 2 =
      Except.ok { sigTen with activeStart := some 5, activeEnd := some 2 } ∧
    ¬ ((5 : Int) ≤ 2) :=
  ⟨rfl, by decide⟩

/-- C6 counterexample: `sigC6` has sample data present whose active
length is 0; `istft` with no explicit target returns the reconstruction
untruncated (five samples), because the source only truncates when the
target length is positive, while the claim prescribes truncation to the
buffer's length 0. -/
theorem C6_zero_length_not_truncated :
    sigC6.audioData.isSome = true ∧
    signal_length sigC6 = some 0 ∧
    Except.map (fun p => p.2) (istft constKernel5 sigC6 none none none true none) =
      Except.ok [[0, 0, 0, 0, 0]] ∧
    ([[(0 : ℚ), 0, 0, 0, 0]].map (fun r => r.take 0)) = [[]] :=
  ⟨rfl, rfl, rfl, rfl⟩

/-- C8 counterexample: on a 3-channel signal with active region `[0, 2)`,
`apply_gain` pushes the gained 3-by-2 slice through the `audio_data`
setter, which auto-transposes it; the new total length is 3 (the former
channel count), not the former active length 2, and the channel count
changes to 2. -/
theorem C8_transposed_gain :
    active_region_is_default sigWideWin = false ∧
    signal_length sigWideWin = some 2 ∧
    Except.map full_signal_length (apply_gain sigWideWin 2) = Except.ok (some 3) ∧
    Except.map num_channels (apply_gain sigWideWin 2) = Except.ok (some 2) ∧
    (some 3 : Option Nat) ≠ some 2 :=
  ⟨rfl, rfl, rfl, rfl, by decide⟩

/-- C9: `add` (hence `+` and the reflected `+`) with any integer operand,
zero or not, returns `self` itself with no validation of the integer. -/
theorem C9_add_integer_is_identity (s : AudioSignal) (n : Int) :
    add s (.int n) = Except.ok s ∧ radd s (.int n) = Except.ok s :=
  ⟨rfl, rfl⟩

/-- C7: the `audio_data` setter stores a 2-D array transposed exactly
when its leading (channel) axis is larger than its trailing (sample)
axis, with the shape swapped accordingly, and promotes a 1-D array of
length n to a single-channel array of shape (1, n). -/
theorem C7_orientation_normalization (m : List (List ℚ)) (xs : List ℚ)
    (hpos : 0 < rowLen m) :
    (rowLen m < m.length →
      set_audio_data_core (.d2 m) = Except.ok (npTranspose m) ∧
      (npTranspose m).length = rowLen m ∧
      rowLen (npTranspose m) = m.length) ∧
    (¬ rowLen m < m.length → set_audio_data_core (.d2 m) = Except.ok m) ∧
    set_audio_data_core (.d1 xs) = Except.ok [xs] ∧
    ([xs] : List (List ℚ)).length = 1 ∧ rowLen [xs] = xs.length := by
  refine ⟨fun h => ⟨?_, npTranspose_length m, rowLen_npTranspose m hpos⟩,
    fun h => ?_, rfl, rfl, rfl⟩
  · show Except.ok (if rowLen m < m.length then npTranspose m else m) =
      Except.ok (npTranspose m)
    rw [if_pos h]
  · show Except.ok (if rowLen m < m.length then npTranspose m else m) =
      Except.ok m
    rw [if_neg h]

/-- C7 witness: the general statement applied to the 5-by-2 matrix of
the claim (stored as its 2-by-5 transpose) and a 1-D triple. -/
theorem C7_orientation_normalization_witness :
    0 < rowLen mat52 ∧
    npTranspose mat52 = [[1, 3, 5, 7, 9], [2, 4, 6, 8, 10]] ∧
    ((rowLen mat52 < mat52.length →
      set_audio_data_core (.d2 mat52) = Except.ok (npTranspose mat52) ∧
      (npTranspose mat52).length = rowLen mat52 ∧
      rowLen (npTranspose mat52) = mat52.length) ∧
    (¬ rowLen mat52 < mat52.length → set_audio_data_core (.d2 mat52) = Except.ok mat52) ∧
    set_audio_data_core (.d1 [1, 2, 3]) = Except.ok [[1, 2, 3]] ∧
    ([[(1 : ℚ), 2, 3]] : List (List ℚ)).length = 1 ∧
    rowLen [[(1 : ℚ), 2, 3]] = ([(1 : ℚ), 2, 3]).length) :=
  ⟨by decide, by decide, C7_orientation_normalization mat52 [1, 2, 3] (by decide)⟩

/-- C5 amended: `set_active_region(start, end)` stores
`active_start = max(start, 0)` and `active_end = min(end, total)` — so
`0 ≤ active_start` and `active_end ≤ total` always hold — and the full
chain `0 ≤ active_start ≤ active_end ≤ total` holds whenever
`0 ≤ start ≤ end ≤ total`; the ordering is not enforced in general. -/
theorem C5_active_region_clamping (s : AudioSignal) (m : List (List ℚ))
    (a e : Int) (hm : s.audioData = some m) :
    set_active_region s a e =
      Except.ok { s with activeStart := some (max a 0),
                         activeEnd := some (min e (rowLen m : Int)) } ∧
    (0 ≤ a → a ≤ e → e ≤ (rowLen m : Int) →
      0 ≤ max a 0 ∧ max a 0 ≤ min e (rowLen m : Int) ∧
        min e (rowLen m : Int) ≤ (rowLen m : Int)) := by
  have hfull : full_signal_length s = some (rowLen m) := by
    unfold full_signal_length
    rw [hm]
    rfl
  constructor
  · unfold set_active_region
    split
    · next h => rw [hfull] at h; cases h
    · next n h =>
      rw [hfull] at h
      injection h with h
      subst h
      have hmax : (if a ≥ 0 then a else 0) = max a 0 := by
        rcases le_or_lt 0 a with h1 | h1
        · rw [if_pos h1, max_eq_left h1]
        · rw [if_neg (by omega), max_eq_right h1.le]
      have hmin : (if e < ((rowLen m : Nat) : Int) then e else ((rowLen m : Nat) : Int)) =
          min e (rowLen m : Int) := by
        rcases lt_or_le e ((rowLen m : Nat) : Int) with h1 | h1
        · rw [if_pos h1, min_eq_left h1.le]
        · rw [if_neg (not_lt.mpr h1), min_eq_right h1]
      rw [hmax, hmin]
  · intro h0 hae hen
    refine ⟨le_max_right a 0, ?_, min_le_right _ _⟩
    rw [max_eq_left h0]
    exact le_min hae (le_trans hae hen)

/-- C5 witness: the clamping statement applied to the 10-sample signal
with the in-range request (2, 7). -/
theorem C5_active_region_clamping_witness :
    sigTen.audioData = some [listTen] ∧
    (set_active_region sigTen 2 7 =
      Except.ok { sigTen with activeStart := some (max 2 0),
                              activeEnd := some (min 7 (rowLen [listTen] : Int)) } ∧
    (0 ≤ (2 : Int) → (2 : Int) ≤ 7 → (7 : Int) ≤ (rowLen [listTen] : Int) →
      0 ≤ max (2 : Int) 0 ∧ max (2 : Int) 0 ≤ min 7 (rowLen [listTen] : Int) ∧
        min (7 : Int) (rowLen [listTen] : Int) ≤ (rowLen [listTen] : Int))) :=
  ⟨rfl, C5_active_region_clamping sigTen [listTen] 2 7 rfl⟩

/-- C8 amended: `apply_gain` reads only the active slice through the
getter, scales it, and stores it through the setter as the new full
backing buffer with the active region reset to default — so any samples
outside the active region are discarded — and, provided the channel
count does not exceed the slice length (so the setter does not
transpose), the new total length equals the former active-region
length. -/
theorem C8_apply_gain_discards (s : AudioSignal) (sl : List (List ℚ)) (g : ℚ)
    (hsl : get_audio_data s = some sl) (hch : sl.length ≤ rowLen sl) :
    ∃ s2, apply_gain s g = Except.ok s2 ∧
      s2.audioData = some (sl.map (fun r => r.map (fun x => x * g))) ∧
      active_region_is_default s2 = true ∧
      full_signal_length s2 = some (rowLen sl) ∧
      signal_length s = some (rowLen sl) := by
  have hrl : rowLen (sl.map (fun r => r.map (fun x => x * g))) = rowLen sl :=
    rowLen_map_rows _ (fun r => List.length_map r _) sl
  have hlen : (sl.map (fun r => r.map (fun x => x * g))).length = sl.length :=
    List.length_map sl _
  refine ⟨set_active_region_to_default
    { s with audioData := some (sl.map (fun r => r.map (fun x => x * g))) },
    ?_, rfl, ?_, ?_, ?_⟩
  · unfold apply_gain
    split
    · next h => rw [hsl] at h; cases h
    · next m h =>
      rw [hsl] at h
      injection h with h
      subst h
      simp only [set_audio_data, set_audio_data_core]
      rw [hrl, hlen, if_neg (not_lt.mpr hch)]
  · simp [active_region_is_default, set_active_region_to_default, full_signal_length]
  · simp [full_signal_length, set_active_region_to_default, hrl]
  · unfold signal_length
    rw [hsl]

/-- C8 witness: the apply_gain statement applied to the mono signal with
active region `[1, 3)` (active slice `[[2, 3]]`) and gain 3. -/
theorem C8_apply_gain_discards_witness :
    get_audio_data sigActive4 = some [[2, 3]] ∧
    ([[(2 : ℚ), 3]] : List (List ℚ)).length ≤ rowLen [[(2 : ℚ), 3]] ∧
    (∃ s2, apply_gain sigActive4 3 = Except.ok s2 ∧
      s2.audioData = some ([[(2 : ℚ), 3]].map (fun r => r.map (fun x => x * 3))) ∧
      active_region_is_default s2 = true ∧
      full_signal_length s2 = some (rowLen [[(2 : ℚ), 3]]) ∧
      signal_length sigActive4 = some (rowLen [[(2 : ℚ), 3]])) :=
  ⟨rfl, by decide, C8_apply_gain_discards sigActive4 [[2, 3]] 3 rfl (by decide)⟩

/-- C10: `signal_length` returns `original_signal_length` (which may
itself be `None`) whenever `audio_data` is `None`, returns the
active-region sample count when audio data is present, and a signal
produced by `make_copy_with_stft_data` has no audio data, so its
`signal_length` is the originating signal's recorded original length. -/
theorem C10_signal_length_fallback (s s2 : AudioSignal) (d : NdArr)
    (verbose : Bool)
    (hcopy : make_copy_with_stft_data s d verbose = Except.ok s2) :
    (s.audioData = none → signal_length s = s.originalSignalLength) ∧
    (∀ sl, get_audio_data s = some sl → signal_length s = some (rowLen sl)) ∧
    s2.audioData = none ∧
    signal_length s2 = s.originalSignalLength := by
  refine ⟨?_, ?_, ?_⟩
  · intro h
    unfold signal_length get_audio_data
    rw [h]
  · intro sl h
    unfold signal_length
    rw [h]
  · unfold make_copy_with_stft_data at hcopy
    split at hcopy
    · cases hcopy
    · next =>
      split at hcopy
      · cases hcopy
      · next s1 hset =>
        unfold set_audio_data at hcopy
        injection hcopy with hcopy
        subst hcopy
        exact ⟨rfl, rfl⟩

/-- C10 witness: the statement applied to a data-less signal recording an
original length of 7, copied with a 1-by-1-by-1 STFT. -/
theorem C10_signal_length_fallback_witness :
    make_copy_with_stft_data sigOrig7 ndC6 false =
      Except.ok { sigOrig7 with stftData := some ndC6, audioData := none } ∧
    ((sigOrig7.audioData = none →
        signal_length sigOrig7 = sigOrig7.originalSignalLength) ∧
      (∀ sl, get_audio_data sigOrig7 = some sl →
        signal_length sigOrig7 = some (rowLen sl)) ∧
      ({ sigOrig7 with stftData := some ndC6, audioData := none } : AudioSignal).audioData = none ∧
      signal_length { sigOrig7 with stftData := some ndC6, audioData := none } =
        sigOrig7.originalSignalLength) :=
  ⟨rfl, C10_signal_length_fallback sigOrig7
    { sigOrig7 with stftData := some ndC6, audioData := none } ndC6 false rfl⟩

/-- C2 amended: over STFT data of shape (F, T, C), a mask of the exact
shape (F, T, C) applies successfully and the returned fresh signal
carries the elementwise masked spectrum of shape (F, T, C) and no sample
data; a mask of shape (F, T) does not broadcast — it fails the shape
check with the shape error (the only non-exact shapes the check accepts
are those with one extra trailing axis) — and a mask of shape
(F, T, C+1) fails with the same shape error. -/
theorem C2_mask_shape_rules (sig : AudioSignal) (v m3 m2 m4 : NdArr)
    (F T C : Nat) (hs : sig.stftData = some v) (hv : v.shape = [F, T, C])
    (h3 : m3.shape = [F, T, C]) (h2 : m2.shape = [F, T])
    (h4 : m4.shape = [F, T, C + 1]) :
    apply_mask sig ⟨m3⟩ false =
      Except.ok (sig, some { sig with
        stftData := some ⟨[F, T, C], (allIndices [F, T, C]).map
          (fun idx => cmul (entryAt v idx) (entryAt m3 idx))⟩
        audioData := none }) ∧
    apply_mask sig ⟨m2⟩ false =
      Except.error "Input mask and self.stft_data are not the same shape!" ∧
    apply_mask sig ⟨m4⟩ false =
      Except.error "Input mask and self.stft_data are not the same shape!" := by
  refine ⟨?_, ?_, ?_⟩
  · simp only [apply_mask, hs]
    rw [if_pos (Or.inl (h3.trans hv.symm))]
    simp only [npMul, hv, h3, broadcastShape_self]
    simp only [make_copy_with_stft_data, set_stft_data, set_audio_data]
    norm_num
  · have hne : ¬ (m2.shape = v.shape ∨ m2.shape.dropLast = v.shape) := by
      rw [h2, hv]
      have hd : ([F, T] : List Nat).dropLast = [F] := rfl
      rw [hd]
      rintro (h | h) <;> simp at h
    simp only [apply_mask, hs]
    rw [if_neg hne]
  · have hne : ¬ (m4.shape = v.shape ∨ m4.shape.dropLast = v.shape) := by
      rw [h4, hv]
      have hd : ([F, T, C + 1] : List Nat).dropLast = [F, T] := rfl
      rw [hd]
      rintro (h | h)
      · injection h with h1 h
        injection h with h2b h
        injection h with h3b h
        omega
      · simp at h
    simp only [apply_mask, hs]
    rw [if_neg hne]

/-- C2 witness: the mask shape rules applied to STFT data of shape
(1, 2, 2) with masks of shapes (1, 2, 2), (1, 2) and (1, 2, 3). -/
theorem C2_mask_shape_rules_witness :
    sigC2.stftData = some ⟨[1, 2, 2], List.replicate 4 ((1 : ℚ), (0 : ℚ))⟩ ∧
    (apply_mask sigC2 ⟨⟨[1, 2, 2], List.replicate 4 ((1 : ℚ), (0 : ℚ))⟩⟩ false =
      Except.ok (sigC2, some { sigC2 with
        stftData := some ⟨[1, 2, 2], (allIndices [1, 2, 2]).map
          (fun idx => cmul
            (entryAt ⟨[1, 2, 2], List.replicate 4 ((1 : ℚ), (0 : ℚ))⟩ idx)
            (entryAt ⟨[1, 2, 2], List.replicate 4 ((1 : ℚ), (0 : ℚ))⟩ idx))⟩
        audioData := none }) ∧
    apply_mask sigC2 ⟨⟨[1, 2], [((1 : ℚ), (0 : ℚ)), ((1 : ℚ), (0 : ℚ))]⟩⟩ false =
      Except.error "Input mask and self.stft_data are not the same shape!" ∧
    apply_mask sigC2 ⟨⟨[1, 2, 3], List.replicate 6 ((1 : ℚ), (0 : ℚ))⟩⟩ false =
      Except.error "Input mask and self.stft_data are not the same shape!") :=
  ⟨rfl, C2_mask_shape_rules sigC2
    ⟨[1, 2, 2], List.replicate 4 ((1 : ℚ), (0 : ℚ))⟩
    ⟨[1, 2, 2], List.replicate 4 ((1 : ℚ), (0 : ℚ))⟩
    ⟨[1, 2], [((1 : ℚ), (0 : ℚ)), ((1 : ℚ), (0 : ℚ))]⟩
    ⟨[1, 2, 3], List.replicate 6 ((1 : ℚ), (0 : ℚ))⟩
    1 2 2 rfl rfl rfl rfl rfl⟩

/-- C6 amended: with non-empty STFT data, `istft` with no explicit
truncation target returns the per-channel kernel reconstructions
truncated to `signal_length` (the active sample-buffer length when audio
data is present, else the recorded original length) when that target is a
positive length, and untruncated otherwise — in particular untruncated
when the target is 0 or when neither length exists. -/
theorem C6_truncation_policy_thm
    (kernel : String → Nat → Nat → List (List Cplx) → List ℚ)
    (s : AudioSignal) (v : NdArr) (n : Nat)
    (hs : s.stftData = some v) (hsz : ¬ ndSize v = 0)
    (hch : num_channels s = some n) :
    Except.map (fun p => p.2) (istft kernel s none none none true none) =
      Except.ok (specTruncationPolicy s
        (istft_signals kernel s.stftParams.window_type
          s.stftParams.window_length s.stftParams.hop_length v n)) := by
  simp only [istft, hs]
  rw [if_neg hsz]
  simp only [hch, Option.getD]
  cases hL : signal_length s with
  | none =>
    have horig : s.originalSignalLength = none := signal_length_none hL
    simp only [hL, horig, Option.map_none, specTruncationPolicy,
      Bool.true_or, if_true, set_audio_data, set_audio_data_core, Except.map]
    rfl
  | some l =>
    simp only [hL, specTruncationPolicy]
    rcases Nat.eq_zero_or_pos l with h0 | hpos
    · subst h0
      norm_num [set_audio_data, set_audio_data_core, Except.map]
    · rw [if_pos (by exact_mod_cast hpos : (0 : Int) < (l : Int)), if_pos hpos]
      simp only [Bool.true_or, if_true, set_audio_data, set_audio_data_core,
        Except.map, Except.ok.injEq]
      have hsl : ∀ r : List ℚ, pySlice 0 ((l : Nat) : Int) r = r.take l :=
        fun r => pySlice_zero_coe l r
      simp [hsl]

/-- C6 witness: the truncation policy applied to a signal with 4 samples
of audio data and a 1-by-1-by-1 STFT, with a kernel returning 6 samples
(the reconstruction is truncated to 4). -/
theorem C6_truncation_policy_thm_witness :
    sigC6w.stftData = some ndC6 ∧ ¬ ndSize ndC6 = 0 ∧
    num_channels sigC6w = some 1 ∧
    Except.map (fun p => p.2) (istft kernel6 sigC6w none none none true none) =
      Except.ok (specTruncationPolicy sigC6w
        (istft_signals kernel6 sigC6w.stftParams.window_type
          sigC6w.stftParams.window_length sigC6w.stftParams.hop_length ndC6 1)) :=
  ⟨rfl, by decide, rfl,
    C6_truncation_policy_thm kernel6 sigC6w ndC6 1 rfl (by decide) rfl⟩
